import Mathlib

/-!
# Sneakzone server — verification of the specification against the code

Shallow embedding of the Sneakzone express server (src/server.js,
src/admin.js, src/database.js).  The relational store is modelled as lists
of rows in insertion (rowid) order; `dbGet` on a `WHERE` clause is
`List.find?`, `DELETE ... WHERE` is `List.filter`, `UPDATE ... WHERE id` is
`List.map` guarded on the id.  AUTOINCREMENT ids are modelled by per-table
counters carried in the state.
-/

/-- A JavaScript JSON value, as far as the handlers inspect one. -/
inductive JsValue where
  | null
  | bool (b : Bool)
  | num (n : Int)
  | str (s : String)
deriving DecidableEq, Repr

/-- JavaScript truthiness of a `JsValue` (used by `updates.role && ...`). -/
def JsValue.truthy : JsValue → Bool
  | .null => false
  | .bool b => b
  | .num n => n != 0
  | .str s => s != ""

/-- A row of the `users` table (database.js, `CREATE TABLE users`). -/
structure UserRow where
  id : Nat
  email : String
  password : String
  first_name : String
  last_name : String
  role : String
  is_active : Bool
deriving DecidableEq, Repr

/-- A row of the `products` table (database.js, `CREATE TABLE products`). -/
structure ProductRow where
  id : Nat
  name : String
  brand : String
  description : String
  price : Int
  image_emoji : String
  sizes : String
deriving DecidableEq, Repr

/-- A row of the `favorites` table (database.js, `CREATE TABLE favorites`). -/
structure FavoriteRow where
  id : Nat
  user_id : Nat
  product_id : Nat
deriving DecidableEq, Repr

/-- A row of the `cart_items` table (database.js, `CREATE TABLE cart_items`). -/
structure CartItemRow where
  id : Nat
  user_id : Nat
  product_id : Nat
  quantity : Nat
deriving DecidableEq, Repr

/-- The database state: the four tables in rowid order, plus the
AUTOINCREMENT counters for the tables the modelled handlers insert into. -/
structure DBState where
  users : List UserRow
  products : List ProductRow
  favorites : List FavoriteRow
  cart_items : List CartItemRow
  nextFavoriteId : Nat
  nextCartItemId : Nat
deriving DecidableEq, Repr

/-- `SELECT id FROM products WHERE name = ?`: the first row (in rowid order)
whose name equals the key (server.js lines 304, 350, 380). -/
def findProductByName (s : DBState) (name : String) : Option ProductRow :=
  s.products.find? (fun p => p.name == name)

/-- Number of favorites rows for a (user, product) pair. -/
def favCount (s : DBState) (userId productId : Nat) : Nat :=
  (s.favorites.filter (fun f => f.user_id == userId && f.product_id == productId)).length

/-- AUTOINCREMENT discipline for `favorites`: every stored id is below the
next id to be handed out. -/
def favIdsFresh (s : DBState) : Bool :=
  s.favorites.all (fun f => f.id < s.nextFavoriteId)

/-- Outcome of the favorites-toggle endpoint. -/
structure ToggleResult where
  status : Nat
  success : Bool
  message : String
  isFavorite : Option Bool
deriving DecidableEq, Repr

/-- POST /api/users/favorites/:productName (server.js lines 299–325):
look the product up by name (404 if absent); if a favorites row exists for
(user, product), `DELETE FROM favorites WHERE id = ?` and answer
`isFavorite: false`; otherwise `INSERT INTO favorites` and answer
`isFavorite: true`. -/
def toggleFavorite (userId : Nat) (productName : String) (s : DBState) :
    ToggleResult × DBState :=
  match findProductByName s productName with
  | none =>
      ({ status := 404, success := false, message := "Produit non trouvé",
         isFavorite := none }, s)
  | some product =>
      match s.favorites.find?
          (fun f => f.user_id == userId && f.product_id == product.id) with
      | some existing =>
          ({ status := 200, success := true,
             message := "Produit retiré des favoris", isFavorite := some false },
           { s with favorites := s.favorites.filter (fun f => f.id != existing.id) })
      | none =>
          ({ status := 200, success := true,
             message := "Produit ajouté aux favoris", isFavorite := some true },
           { s with
               favorites := s.favorites ++
                 [⟨s.nextFavoriteId, userId, product.id⟩],
               nextFavoriteId := s.nextFavoriteId + 1 })

lemma favPair_find?_eq_none {s : DBState} {u pid : Nat}
    (h : favCount s u pid = 0) :
    s.favorites.find? (fun f => f.user_id == u && f.product_id == pid) = none := by
  unfold favCount at h
  rw [List.length_eq_zero, List.filter_eq_nil_iff] at h
  exact List.find?_eq_none.mpr h

/-- C1: favorites toggle. When the lookup key resolves to no product the
toggle answers 404 and leaves the state unchanged. When a (u,p) favorites
row exists (count 1 under the UNIQUE constraint) the toggle deletes it and
answers `isFavorite = false`. When no row exists, the toggle inserts one and
answers `isFavorite = true`, and a second toggle then answers
`isFavorite = false`, brings the (u,p) row count back to 0 and restores the
favorites table exactly. -/
theorem favorites_toggle_spec (u : Nat) (key : String) (s : DBState)
    (hfresh : favIdsFresh s = true) :
    (findProductByName s key = none →
        toggleFavorite u key s =
          ({ status := 404, success := false, message := "Produit non trouvé",
             isFavorite := none }, s)) ∧
    (∀ p f, findProductByName s key = some p →
        s.favorites.find? (fun x => x.user_id == u && x.product_id == p.id) = some f →
        favCount s u p.id = 1 →
        (toggleFavorite u key s).1.isFavorite = some false ∧
        (toggleFavorite u key s).1.status = 200 ∧
        favCount (toggleFavorite u key s).2 u p.id = 0) ∧
    (∀ p, findProductByName s key = some p → favCount s u p.id = 0 →
        (toggleFavorite u key s).1.isFavorite = some true ∧
        (toggleFavorite u key s).1.status = 200 ∧
        favCount (toggleFavorite u key s).2 u p.id = 1 ∧
        (toggleFavorite u key ((toggleFavorite u key s).2)).1.isFavorite = some false ∧
        (toggleFavorite u key ((toggleFavorite u key s).2)).1.status = 200 ∧
        favCount ((toggleFavorite u key ((toggleFavorite u key s).2)).2) u p.id = 0 ∧
        ((toggleFavorite u key ((toggleFavorite u key s).2)).2).favorites = s.favorites) := by
  refine ⟨?_, ?_, ?_⟩
  · intro h
    simp [toggleFavorite, h]
  · intro p f hp hf hc1
    have hfp := List.find?_some hf
    have hfm : f ∈ s.favorites := List.mem_of_find?_eq_some hf
    have hfmem : f ∈ s.favorites.filter
        (fun x => x.user_id == u && x.product_id == p.id) :=
      List.mem_filter.mpr ⟨hfm, hfp⟩
    simp only [toggleFavorite, hp, hf]
    refine ⟨trivial, trivial, ?_⟩
    unfold favCount
    simp only [List.filter_filter, List.length_eq_zero, List.filter_eq_nil_iff]
    intro x hx hcontra
    simp only [Bool.and_eq_true, bne_iff_ne, ne_eq] at hcontra
    obtain ⟨hpair, hne⟩ := hcontra
    unfold favCount at hc1
    rw [List.length_eq_one] at hc1
    obtain ⟨a, ha⟩ := hc1
    have hxmem : x ∈ s.favorites.filter
        (fun y => y.user_id == u && y.product_id == p.id) :=
      List.mem_filter.mpr ⟨hx, by simpa using hpair⟩
    rw [ha, List.mem_singleton] at hxmem hfmem
    exact hne (by rw [hxmem, hfmem])
  · intro p hp hc0
    have hnone := favPair_find?_eq_none hc0
    have hnil : s.favorites.filter
        (fun x => x.user_id == u && x.product_id == p.id) = [] := by
      rw [← List.length_eq_zero]
      exact hc0
    have h1 : toggleFavorite u key s =
        ({ status := 200, success := true, message := "Produit ajouté aux favoris",
           isFavorite := some true },
         { s with
             favorites := s.favorites ++ [⟨s.nextFavoriteId, u, p.id⟩],
             nextFavoriteId := s.nextFavoriteId + 1 }) := by
      simp only [toggleFavorite, hp, hnone]
    have hp1 : findProductByName
        ({ s with
             favorites := s.favorites ++ [⟨s.nextFavoriteId, u, p.id⟩],
             nextFavoriteId := s.nextFavoriteId + 1 }) key = some p := hp
    have hfind1 : (s.favorites ++ [(⟨s.nextFavoriteId, u, p.id⟩ : FavoriteRow)]).find?
        (fun x => x.user_id == u && x.product_id == p.id) =
        some ⟨s.nextFavoriteId, u, p.id⟩ := by
      rw [List.find?_append, hnone]
      simp
    have h2 : toggleFavorite u key
        ({ s with
             favorites := s.favorites ++ [⟨s.nextFavoriteId, u, p.id⟩],
             nextFavoriteId := s.nextFavoriteId + 1 }) =
        ({ status := 200, success := true, message := "Produit retiré des favoris",
           isFavorite := some false },
         { s with
             favorites := (s.favorites ++
               [(⟨s.nextFavoriteId, u, p.id⟩ : FavoriteRow)]).filter
                 (fun x => x.id != s.nextFavoriteId),
             nextFavoriteId := s.nextFavoriteId + 1 }) := by
      simp only [toggleFavorite, hp1, hfind1]
    have hall : ∀ x ∈ s.favorites, (x.id != s.nextFavoriteId) = true := by
      intro x hx
      have hlt := of_decide_eq_true ((List.all_eq_true.mp hfresh) x hx)
      simp only [bne_iff_ne, ne_eq]
      omega
    have hfilter : (s.favorites ++
        [(⟨s.nextFavoriteId, u, p.id⟩ : FavoriteRow)]).filter
          (fun x => x.id != s.nextFavoriteId) = s.favorites := by
      rw [List.filter_append, List.filter_eq_self.mpr hall]
      simp
    rw [h1]
    dsimp only
    rw [h2]
    dsimp only
    refine ⟨rfl, rfl, ?_, rfl, rfl, ?_, ?_⟩
    · unfold favCount
      dsimp only
      rw [List.filter_append, hnil]
      simp
    · unfold favCount
      dsimp only
      rw [hfilter]
      exact hc0
    · exact hfilter

/-- The three seed products of database.js (initDatabase), in rowid order. -/
def sampleProducts : List ProductRow :=
  [⟨1, "Air Jordan 1 Retro High", "NIKE", "Chicago - Rouge/Blanc/Noir", 179, "👟", "38-46"⟩,
   ⟨2, "Yeezy Boost 350 V2", "ADIDAS", "Zebra - Blanc/Noir", 249, "🏃", "36-45"⟩,
   ⟨3, "Air Max 90", "NIKE", "Triple White", 129, "⚡", "37-47"⟩]

/-- The seeded default admin plus one registered regular user. -/
def sampleUsers : List UserRow :=
  [⟨1, "admin@sneakzone.com", "bcrypt$adminhash", "Admin", "SneakZone", "admin", true⟩,
   ⟨2, "jane@example.com", "bcrypt$janehash", "Jane", "Doe", "user", true⟩]

/-- A concrete database state right after seeding and one registration. -/
def sampleState : DBState :=
  { users := sampleUsers, products := sampleProducts, favorites := [],
    cart_items := [], nextFavoriteId := 1, nextCartItemId := 1 }

/-- Witness for C1 at a concrete input: user 2 double-toggles the seeded
product "Air Max 90" starting from an empty favorites table. -/
theorem favorites_toggle_spec_witness :
    favIdsFresh sampleState = true ∧
    findProductByName sampleState "Air Max 90" = some
      ⟨3, "Air Max 90", "NIKE", "Triple White", 129, "⚡", "37-47"⟩ ∧
    favCount sampleState 2 3 = 0 ∧
    (toggleFavorite 2 "Air Max 90" sampleState).1.isFavorite = some true ∧
    (toggleFavorite 2 "Air Max 90"
      ((toggleFavorite 2 "Air Max 90" sampleState).2)).1.isFavorite = some false ∧
    favCount ((toggleFavorite 2 "Air Max 90"
      ((toggleFavorite 2 "Air Max 90" sampleState).2)).2) 2 3 = 0 := by
  have h := (favorites_toggle_spec 2 "Air Max 90" sampleState (by decide)).2.2
    ⟨3, "Air Max 90", "NIKE", "Triple White", 129, "⚡", "37-47"⟩
    (by decide) (by decide)
  exact ⟨by decide, by decide, by decide, h.1, h.2.2.2.1, h.2.2.2.2.2.1⟩

/-- Outcome of an endpoint that answers only status/success/message. -/
structure ApiResult where
  status : Nat
  success : Bool
  message : String
deriving DecidableEq, Repr

/-- Number of cart_items rows for a (user, product) pair. -/
def cartCount (s : DBState) (userId productId : Nat) : Nat :=
  (s.cart_items.filter
    (fun c => c.user_id == userId && c.product_id == productId)).length

/-- AUTOINCREMENT discipline for `cart_items`. -/
def cartIdsFresh (s : DBState) : Bool :=
  s.cart_items.all (fun c => c.id < s.nextCartItemId)

/-- POST /api/users/cart/:productName (server.js lines 345–371): look the
product up by name (404 if absent); if a cart row exists for
(user, product), `UPDATE cart_items SET quantity = quantity + 1 WHERE id = ?`;
otherwise `INSERT INTO cart_items (..., quantity) VALUES (?, ?, 1)`. -/
def cartAdd (userId : Nat) (productName : String) (s : DBState) :
    ApiResult × DBState :=
  match findProductByName s productName with
  | none =>
      ({ status := 404, success := false, message := "Produit non trouvé" }, s)
  | some product =>
      match s.cart_items.find?
          (fun c => c.user_id == userId && c.product_id == product.id) with
      | some existing =>
          ({ status := 200, success := true, message := "Produit ajouté au panier" },
           { s with cart_items := s.cart_items.map (fun c =>
               if c.id == existing.id then { c with quantity := c.quantity + 1 }
               else c) })
      | none =>
          ({ status := 200, success := true, message := "Produit ajouté au panier" },
           { s with
               cart_items := s.cart_items ++
                 [⟨s.nextCartItemId, userId, product.id, 1⟩],
               nextCartItemId := s.nextCartItemId + 1 })

/-- DELETE /api/users/cart/:productName (server.js lines 375–392): look the
product up by name (404 if absent); then
`DELETE FROM cart_items WHERE user_id = ? AND product_id = ?` and answer
success unconditionally. -/
def cartRemove (userId : Nat) (productName : String) (s : DBState) :
    ApiResult × DBState :=
  match findProductByName s productName with
  | none =>
      ({ status := 404, success := false, message := "Produit non trouvé" }, s)
  | some product =>
      ({ status := 200, success := true, message := "Produit retiré du panier" },
       { s with cart_items := s.cart_items.filter (fun c =>
           !(c.user_id == userId && c.product_id == product.id)) })

/-- `n` successive cart adds for the same user and lookup key. -/
def cartAddN (userId : Nat) (productName : String) : Nat → DBState → DBState
  | 0, s => s
  | n + 1, s => cartAddN userId productName n (cartAdd userId productName s).2

lemma cartAdd_increments (u : Nat) (key : String) (t : DBState) (p : ProductRow)
    (l : List CartItemRow) (cid q : Nat)
    (hp : findProductByName t key = some p)
    (ht : t.cart_items = l ++ [⟨cid, u, p.id, q⟩])
    (hl : l.filter (fun c => c.user_id == u && c.product_id == p.id) = [])
    (hid : ∀ c ∈ l, c.id ≠ cid) :
    (cartAdd u key t).2 = { t with cart_items := l ++ [⟨cid, u, p.id, q + 1⟩] } := by
  have hfind : t.cart_items.find?
      (fun c => c.user_id == u && c.product_id == p.id) =
      some ⟨cid, u, p.id, q⟩ := by
    rw [ht, List.find?_append]
    have : l.find? (fun c => c.user_id == u && c.product_id == p.id) = none :=
      List.find?_eq_none.mpr (by
        intro x hx hcontra
        have : x ∈ l.filter (fun c => c.user_id == u && c.product_id == p.id) :=
          List.mem_filter.mpr ⟨hx, hcontra⟩
        rw [hl] at this
        exact absurd this (List.not_mem_nil x))
    rw [this]
    simp
  simp only [cartAdd, hp, hfind]
  have hmap : t.cart_items.map (fun c =>
      if c.id == (⟨cid, u, p.id, q⟩ : CartItemRow).id
      then { c with quantity := c.quantity + 1 } else c) =
      l ++ [⟨cid, u, p.id, q + 1⟩] := by
    rw [ht, List.map_append]
    have hml : l.map (fun c =>
        if c.id == cid then { c with quantity := c.quantity + 1 } else c) = l :=
      (List.map_congr_left (fun c hc => by
        simp only [beq_iff_eq]
        rw [if_neg (hid c hc)])).trans (List.map_id' l)
    simp only [List.map_cons, List.map_nil]
    rw [hml]
    simp
  rw [hmap]

lemma cartAddN_increments (u : Nat) (key : String) (p : ProductRow)
    (l : List CartItemRow) (cid : Nat)
    (hl : l.filter (fun c => c.user_id == u && c.product_id == p.id) = [])
    (hid : ∀ c ∈ l, c.id ≠ cid) :
    ∀ (n : Nat) (t : DBState) (q : Nat),
      findProductByName t key = some p →
      t.cart_items = l ++ [⟨cid, u, p.id, q⟩] →
      cartAddN u key n t = { t with cart_items := l ++ [⟨cid, u, p.id, q + n⟩] }
  | 0, t, q, _, ht => by
      simp only [cartAddN, Nat.add_zero]
      rw [← ht]
  | n + 1, t, q, hp, ht => by
      simp only [cartAddN]
      rw [cartAdd_increments u key t p l cid q hp ht hl hid]
      have hp' : findProductByName
          { t with cart_items := l ++ [⟨cid, u, p.id, q + 1⟩] } key = some p := hp
      rw [cartAddN_increments u key p l cid hl hid n _ (q + 1) hp' rfl]
      have hq : q + 1 + n = q + (n + 1) := by omega
      rw [hq]

/-- C2: cart add/remove. Add answers 404 on an unknown lookup key. Starting
from a state with no (u,p) cart row, N = n+1 adds leave exactly one
cart_items row for (u,p), with quantity N, appended after the untouched rest
of the table; one remove then answers success and deletes that row entirely,
restoring the cart table exactly, whatever the quantity was. -/
theorem cart_add_remove_spec (u : Nat) (key : String) (s : DBState)
    (hfresh : cartIdsFresh s = true) :
    (findProductByName s key = none →
        cartAdd u key s =
          ({ status := 404, success := false, message := "Produit non trouvé" }, s)) ∧
    (∀ p, findProductByName s key = some p → cartCount s u p.id = 0 →
        ∀ n : Nat,
          (cartAddN u key (n + 1) s).cart_items =
            s.cart_items ++ [⟨s.nextCartItemId, u, p.id, n + 1⟩] ∧
          (cartAddN u key (n + 1) s).cart_items.filter
              (fun c => c.user_id == u && c.product_id == p.id) =
            [⟨s.nextCartItemId, u, p.id, n + 1⟩] ∧
          (cartRemove u key (cartAddN u key (n + 1) s)).1 =
            { status := 200, success := true, message := "Produit retiré du panier" } ∧
          (cartRemove u key (cartAddN u key (n + 1) s)).2.cart_items = s.cart_items) := by
  constructor
  · intro h
    simp [cartAdd, h]
  · intro p hp hc0 n
    have hnil : s.cart_items.filter
        (fun c => c.user_id == u && c.product_id == p.id) = [] := by
      rw [← List.length_eq_zero]
      exact hc0
    have hfind0 : s.cart_items.find?
        (fun c => c.user_id == u && c.product_id == p.id) = none :=
      List.find?_eq_none.mpr (by
        intro x hx hcontra
        have : x ∈ s.cart_items.filter
            (fun c => c.user_id == u && c.product_id == p.id) :=
          List.mem_filter.mpr ⟨hx, hcontra⟩
        rw [hnil] at this
        exact absurd this (List.not_mem_nil x))
    have hid : ∀ c ∈ s.cart_items, c.id ≠ s.nextCartItemId := by
      intro c hc
      have hlt := of_decide_eq_true ((List.all_eq_true.mp hfresh) c hc)
      omega
    have h1 : (cartAdd u key s).2 =
        { s with
            cart_items := s.cart_items ++ [⟨s.nextCartItemId, u, p.id, 1⟩],
            nextCartItemId := s.nextCartItemId + 1 } := by
      simp only [cartAdd, hp, hfind0]
    have hp' : findProductByName
        ({ s with
             cart_items := s.cart_items ++ [⟨s.nextCartItemId, u, p.id, 1⟩],
             nextCartItemId := s.nextCartItemId + 1 }) key = some p := hp
    have hN := cartAddN_increments u key p s.cart_items s.nextCartItemId hnil hid n
      ({ s with
           cart_items := s.cart_items ++ [⟨s.nextCartItemId, u, p.id, 1⟩],
           nextCartItemId := s.nextCartItemId + 1 }) 1 hp' rfl
    have hq : 1 + n = n + 1 := by omega
    rw [hq] at hN
    have hNall : cartAddN u key (n + 1) s =
        { s with
            cart_items := s.cart_items ++ [⟨s.nextCartItemId, u, p.id, n + 1⟩],
            nextCartItemId := s.nextCartItemId + 1 } := by
      simp only [cartAddN]
      rw [h1, hN]
    rw [hNall]
    have hp2 : findProductByName
        ({ s with
             cart_items := s.cart_items ++ [⟨s.nextCartItemId, u, p.id, n + 1⟩],
             nextCartItemId := s.nextCartItemId + 1 }) key = some p := hp
    have hkeep : ∀ c ∈ s.cart_items,
        (!(c.user_id == u && c.product_id == p.id)) = true := by
      intro c hc
      cases hpair : (c.user_id == u && c.product_id == p.id) with
      | false => rfl
      | true =>
        exfalso
        have hmem : c ∈ s.cart_items.filter
            (fun x => x.user_id == u && x.product_id == p.id) :=
          List.mem_filter.mpr ⟨hc, hpair⟩
        rw [hnil] at hmem
        exact absurd hmem (List.not_mem_nil c)
    refine ⟨rfl, ?_, ?_, ?_⟩
    · show (s.cart_items ++
          [(⟨s.nextCartItemId, u, p.id, n + 1⟩ : CartItemRow)]).filter
          (fun c => c.user_id == u && c.product_id == p.id) =
          [(⟨s.nextCartItemId, u, p.id, n + 1⟩ : CartItemRow)]
      rw [List.filter_append, hnil]
      simp
    · simp only [cartRemove, hp2]
    · simp only [cartRemove, hp2]
      show (s.cart_items ++
          [(⟨s.nextCartItemId, u, p.id, n + 1⟩ : CartItemRow)]).filter
          (fun c => !(c.user_id == u && c.product_id == p.id)) = s.cart_items
      rw [List.filter_append, List.filter_eq_self.mpr hkeep]
      simp

/-- Witness for C2 at a concrete input: user 2 adds "Air Max 90" three times
from an empty cart, getting one row with quantity 3, then one remove empties
the cart. -/
theorem cart_add_remove_spec_witness :
    cartIdsFresh sampleState = true ∧
    cartCount sampleState 2 3 = 0 ∧
    (cartAddN 2 "Air Max 90" 3 sampleState).cart_items = [⟨1, 2, 3, 3⟩] ∧
    (cartRemove 2 "Air Max 90"
      (cartAddN 2 "Air Max 90" 3 sampleState)).2.cart_items = [] := by
  have h := (cart_add_remove_spec 2 "Air Max 90" sampleState (by decide)).2
    ⟨3, "Air Max 90", "NIKE", "Triple White", 129, "⚡", "37-47"⟩
    (by decide) (by decide) 2
  refine ⟨by decide, by decide, ?_, ?_⟩
  · simpa [sampleState] using h.1
  · simpa [sampleState] using h.2.2.2

/-- C9: removing an absent cart item. Remove answers 404 only when the
lookup key matches no product; whenever the key resolves to a product it
answers success (HTTP 200), and if no (u,p) cart row exists the state is
completely unchanged: removal of an absent item is a successful no-op. -/
theorem cart_remove_absent_spec (u : Nat) (key : String) (s : DBState) :
    (findProductByName s key = none →
        cartRemove u key s =
          ({ status := 404, success := false, message := "Produit non trouvé" }, s)) ∧
    (∀ p, findProductByName s key = some p →
        (cartRemove u key s).1 =
          { status := 200, success := true, message := "Produit retiré du panier" } ∧
        (cartCount s u p.id = 0 → (cartRemove u key s).2 = s)) := by
  constructor
  · intro h
    simp [cartRemove, h]
  · intro p hp
    constructor
    · simp only [cartRemove, hp]
    · intro hc0
      have hnil : s.cart_items.filter
          (fun c => c.user_id == u && c.product_id == p.id) = [] := by
        rw [← List.length_eq_zero]
        exact hc0
      have hkeep : ∀ c ∈ s.cart_items,
          (!(c.user_id == u && c.product_id == p.id)) = true := by
        intro c hc
        cases hpair : (c.user_id == u && c.product_id == p.id) with
        | false => rfl
        | true =>
          exfalso
          have hmem : c ∈ s.cart_items.filter
              (fun x => x.user_id == u && x.product_id == p.id) :=
            List.mem_filter.mpr ⟨hc, hpair⟩
          rw [hnil] at hmem
          exact absurd hmem (List.not_mem_nil c)
      simp only [cartRemove, hp]
      rw [List.filter_eq_self.mpr hkeep]

/-- Witness for C9 at a concrete input: user 2 removes "Air Max 90" from an
empty cart and gets a success with the state untouched. -/
theorem cart_remove_absent_spec_witness :
    (cartRemove 2 "Air Max 90" sampleState).1 =
      { status := 200, success := true, message := "Produit retiré du panier" } ∧
    (cartRemove 2 "Air Max 90" sampleState).2 = sampleState := by
  have h := (cart_remove_absent_spec 2 "Air Max 90" sampleState).2
    ⟨3, "Air Max 90", "NIKE", "Triple White", 129, "⚡", "37-47"⟩ (by decide)
  exact ⟨h.1, h.2 (by decide)⟩

/-- Outcome of the login endpoint: status, success flag, message and the
user object of the success response (server.js lines 234–244). -/
structure LoginResult where
  status : Nat
  success : Bool
  message : String
  user : Option (List (String × JsValue))
deriving DecidableEq, Repr

/-- The user object of the login success response (server.js lines 237–243):
exactly id, email, firstName, lastName, role. -/
def loginResponseUser (u : UserRow) : List (String × JsValue) :=
  [("id", .num u.id), ("email", .str u.email),
   ("firstName", .str u.first_name), ("lastName", .str u.last_name),
   ("role", .str u.role)]

/-- The user object of the register success response (server.js lines
191–197): exactly id, email, firstName, lastName, role. -/
def registerResponseUser (u : UserRow) : List (String × JsValue) :=
  [("id", .num u.id), ("email", .str u.email),
   ("firstName", .str u.first_name), ("lastName", .str u.last_name),
   ("role", .str u.role)]

/-- POST /api/auth/login (server.js lines 207–250): look the user up by
email (`SELECT ... WHERE email = ?`); 401 with the generic message if
absent; 401 "Compte désactivé" if inactive; compare the password against
the stored hash (`bcrypt.compare`, passed in as `verify`); 401 with the
generic message on mismatch; otherwise success with the projected user. -/
def login (verify : String → String → Bool) (email password : String)
    (users : List UserRow) : LoginResult :=
  match users.find? (fun u => u.email == email) with
  | none =>
      { status := 401, success := false,
        message := "Email ou mot de passe incorrect", user := none }
  | some user =>
      if !user.is_active then
        { status := 401, success := false, message := "Compte désactivé",
          user := none }
      else if !(verify password user.password) then
        { status := 401, success := false,
          message := "Email ou mot de passe incorrect", user := none }
      else
        { status := 200, success := true, message := "Connexion réussie",
          user := some (loginResponseUser user) }

/-- C3: login does not reveal which of email or password was wrong. A login
whose email matches a stored active user but whose password fails the hash
check, and a login whose email matches no stored user, produce literally
identical responses: both 401 with the same generic message. -/
theorem login_generic_error_spec (verify : String → String → Bool)
    (users : List UserRow) (e1 pw1 e2 pw2 : String) (u : UserRow)
    (h1 : users.find? (fun x => x.email == e1) = some u)
    (hactive : u.is_active = true)
    (hwrong : verify pw1 u.password = false)
    (h2 : users.find? (fun x => x.email == e2) = none) :
    login verify e1 pw1 users = login verify e2 pw2 users ∧
    (login verify e1 pw1 users).status = 401 ∧
    (login verify e1 pw1 users).message = "Email ou mot de passe incorrect" := by
  simp only [login, h1, h2, hactive, hwrong]
  refine ⟨rfl, rfl, rfl⟩

/-- Witness for C3 at a concrete input: wrong password for the seeded admin
account versus a login with an unknown email address. -/
theorem login_generic_error_spec_witness :
    login (fun p h => p == h) "admin@sneakzone.com" "wrongpass" sampleUsers =
      login (fun p h => p == h) "nobody@example.com" "whatever" sampleUsers ∧
    (login (fun p h => p == h) "admin@sneakzone.com" "wrongpass"
      sampleUsers).status = 401 := by
  have h := login_generic_error_spec (fun p h => p == h) sampleUsers
    "admin@sneakzone.com" "wrongpass" "nobody@example.com" "whatever"
    ⟨1, "admin@sneakzone.com", "bcrypt$adminhash", "Admin", "SneakZone",
     "admin", true⟩
    (by decide) (by decide) (by decide) (by decide)
  exact ⟨h.1, h.2.1⟩

/-- Column list of the SELECT in authenticateToken (server.js lines
101–104), which produces the `user` object of the verify response. -/
def authSelectColumns : List String :=
  ["id", "email", "first_name", "last_name", "role", "is_active"]

/-- Column list of the SELECT in AdminFunctions.getUsers (admin.js lines
7–11), which produces the admin user-listing response. -/
def getUsersSelectColumns : List String :=
  ["id", "email", "first_name", "last_name", "role", "is_active", "created_at"]

/-- C10: no response exposes the stored password hash. The register and
login success user objects carry exactly the keys id, email, firstName,
lastName, role — whatever the user row holds — and the verify and admin
user-listing selections name column lists that exclude `password`. -/
theorem no_password_in_responses_spec (u : UserRow) :
    (registerResponseUser u).map Prod.fst =
      ["id", "email", "firstName", "lastName", "role"] ∧
    (loginResponseUser u).map Prod.fst =
      ["id", "email", "firstName", "lastName", "role"] ∧
    "password" ∉ (registerResponseUser u).map Prod.fst ∧
    "password" ∉ (loginResponseUser u).map Prod.fst ∧
    "password" ∉ authSelectColumns ∧
    "password" ∉ getUsersSelectColumns := by
  refine ⟨rfl, rfl, ?_, ?_, by decide, by decide⟩
  · simp [registerResponseUser]
  · simp [loginResponseUser]

/-- Lookup of a field in a JSON request body; `none` models `undefined`. -/
def bodyGet (body : List (String × JsValue)) (k : String) : Option JsValue :=
  (body.find? (fun kv => kv.1 == k)).map Prod.snd

/-- `updates.role && ['user', 'admin'].includes(updates.role)` (admin.js
lines 47–49): the field must be truthy and strictly equal to one of the two
role strings (Array.includes compares with SameValueZero, so only a string
can match). -/
def validRole (body : List (String × JsValue)) : Option String :=
  match bodyGet body "role" with
  | some (.str r) =>
      if (JsValue.str r).truthy && (r == "user" || r == "admin") then some r
      else none
  | _ => none

/-- `typeof updates.is_active === 'boolean'` (admin.js lines 50–52). -/
def validActive (body : List (String × JsValue)) : Option Bool :=
  match bodyGet body "is_active" with
  | some (.bool b) => some b
  | _ => none

/-- Outcome of an AdminFunctions call: the JSON envelope it returns. -/
structure AdminResult where
  success : Bool
  message : String
deriving DecidableEq, Repr

namespace AdminFunctions

/-- AdminFunctions.updateUser (admin.js lines 44–69): build `validUpdates`
from the whitelisted role / is_active fields, fail with "Aucune
modification valide" when empty, otherwise run a single
`UPDATE users SET ... WHERE id = ?` writing exactly those fields. The
target id is `none` when the route's text parameter converts to no row id
(the UPDATE then matches no row but still succeeds). -/
def updateUser (userId : Option Nat) (body : List (String × JsValue))
    (s : DBState) : AdminResult × DBState :=
  match validRole body, validActive body with
  | none, none =>
      ({ success := false, message := "Aucune modification valide" }, s)
  | roleU, activeU =>
      ({ success := true, message := "Utilisateur modifié avec succès" },
       { s with users := s.users.map (fun r =>
           if some r.id == userId then
             { r with
                 role := roleU.getD r.role,
                 is_active := activeU.getD r.is_active }
           else r) })

/-- AdminFunctions.deleteUser (admin.js lines 72–80): a single
`DELETE FROM users WHERE id = ?`. The sqlite3 connection of database.js
never issues `PRAGMA foreign_keys = ON`, and SQLite leaves foreign-key
enforcement off by default, so the `ON DELETE CASCADE` clauses declared on
favorites/cart_items are inert: only the users row goes away and dependent
rows stay behind. -/
def deleteUser (userId : Option Nat) (s : DBState) : AdminResult × DBState :=
  ({ success := true, message := "Utilisateur supprimé avec succès" },
   { s with users := s.users.filter (fun r => !(some r.id == userId)) })

end AdminFunctions

/-- Numeric value of a list of decimal digit characters. -/
def digitsVal (cs : List Char) : Nat :=
  cs.foldl (fun acc c => acc * 10 + (c.toNat - 48)) 0

/-- Hexadecimal digit test for the `0x` branch of JavaScript parseInt. -/
def isHexDigitCh (c : Char) : Bool :=
  c.isDigit || ('a' ≤ c && c ≤ 'f') || ('A' ≤ c && c ≤ 'F')

/-- Numeric value of a list of hexadecimal digit characters. -/
def hexDigitsVal (cs : List Char) : Nat :=
  cs.foldl (fun acc c =>
    acc * 16 + (if c.isDigit then c.toNat - 48
      else if 'a' ≤ c && c ≤ 'f' then c.toNat - 87 else c.toNat - 55)) 0

/-- Magnitude part of JavaScript parseInt with no explicit radix: a `0x` /
`0X` prefix switches to base 16, otherwise the longest prefix of decimal
digits is read; no digits at all is NaN (`none`). -/
def parseIntMagnitude : List Char → Option Nat
  | '0' :: 'x' :: rest =>
      let ds := rest.takeWhile isHexDigitCh
      if ds.isEmpty then none else some (hexDigitsVal ds)
  | '0' :: 'X' :: rest =>
      let ds := rest.takeWhile isHexDigitCh
      if ds.isEmpty then none else some (hexDigitsVal ds)
  | cs =>
      let ds := cs.takeWhile Char.isDigit
      if ds.isEmpty then none else some (digitsVal ds)

/-- Leading and trailing whitespace removal on a character list (the trim
step of JavaScript parseInt). -/
def trimChars (cs : List Char) : List Char :=
  ((cs.dropWhile Char.isWhitespace).reverse.dropWhile Char.isWhitespace).reverse

/-- JavaScript `parseInt(str)` as used on the :userId route parameter
(server.js lines 410, 421): trim, optional sign, then the magnitude;
`none` models NaN, which is `===`-different from every number. -/
def parseIntJs (str : String) : Option Int :=
  match trimChars str.toList with
  | '-' :: cs => (parseIntMagnitude cs).map (fun n => -(n : Int))
  | '+' :: cs => (parseIntMagnitude cs).map (fun n => (n : Int))
  | cs => (parseIntMagnitude cs).map (fun n => (n : Int))

/-- SQLite numeric affinity for `WHERE id = ?` with a TEXT parameter: a
canonical decimal literal converts to the integer it denotes and can match
the INTEGER id column; any other text matches no row. -/
def textRowId (str : String) : Option Nat :=
  let cs := str.toList
  if !cs.isEmpty && cs.all Char.isDigit then some (digitsVal cs) else none

/-- PUT /api/admin/users/:userId (server.js lines 407–416): reject with 400
when `parseInt(userId) === req.user.id`, before calling
AdminFunctions.updateUser; otherwise forward to the data layer and wrap its
envelope in a 200 response. -/
def adminUpdateUserRoute (adminId : Nat) (userIdStr : String)
    (body : List (String × JsValue)) (s : DBState) : ApiResult × DBState :=
  if parseIntJs userIdStr = some (adminId : Int) then
    ({ status := 400, success := false,
       message := "Impossible de modifier son propre compte" }, s)
  else
    let r := AdminFunctions.updateUser (textRowId userIdStr) body s
    ({ status := 200, success := r.1.success, message := r.1.message }, r.2)

/-- DELETE /api/admin/users/:userId (server.js lines 418–427): reject with
400 when `parseInt(userId) === req.user.id`, before calling
AdminFunctions.deleteUser; otherwise forward to the data layer. -/
def adminDeleteUserRoute (adminId : Nat) (userIdStr : String) (s : DBState) :
    ApiResult × DBState :=
  if parseIntJs userIdStr = some (adminId : Int) then
    ({ status := 400, success := false,
       message := "Impossible de supprimer son propre compte" }, s)
  else
    let r := AdminFunctions.deleteUser (textRowId userIdStr) s
    ({ status := 200, success := r.1.success, message := r.1.message }, r.2)

/-- C4: the admin self-modification guard. When the :userId parameter
parses to the authenticated administrator's own id, both the user-update
and the user-delete routes answer 400 with the "own account" message and
return the state untouched — the data layer is never reached. -/
theorem admin_self_guard_spec (adminId : Nat) (userIdStr : String)
    (body : List (String × JsValue)) (s : DBState)
    (h : parseIntJs userIdStr = some (adminId : Int)) :
    adminUpdateUserRoute adminId userIdStr body s =
      ({ status := 400, success := false,
         message := "Impossible de modifier son propre compte" }, s) ∧
    adminDeleteUserRoute adminId userIdStr s =
      ({ status := 400, success := false,
         message := "Impossible de supprimer son propre compte" }, s) := by
  constructor
  · simp [adminUpdateUserRoute, h]
  · simp [adminDeleteUserRoute, h]

/-- Witness for C4 at a concrete input: the seeded admin (id 1) targeting
userId "1". -/
theorem admin_self_guard_spec_witness :
    parseIntJs "1" = some 1 ∧
    adminUpdateUserRoute 1 "1" [("role", .str "user")] sampleState =
      ({ status := 400, success := false,
         message := "Impossible de modifier son propre compte" }, sampleState) ∧
    adminDeleteUserRoute 1 "1" sampleState =
      ({ status := 400, success := false,
         message := "Impossible de supprimer son propre compte" }, sampleState) := by
  have h := admin_self_guard_spec 1 "1" [("role", .str "user")] sampleState
    (by decide)
  exact ⟨by decide, h.1, h.2⟩

/-- C5: updateUser whitelists exactly role and is_active. Its outcome
depends only on the body's "role" and "is_active" fields (every other field
is ignored); when neither is present and valid it fails with "Aucune
modification valide" and writes nothing; and every user row after the call
differs from a pre-existing row at most in role (only to a validated role)
and is_active (only to a supplied boolean). -/
theorem admin_update_user_fields_spec (userId : Option Nat)
    (b1 b2 : List (String × JsValue)) (s : DBState) :
    (bodyGet b1 "role" = bodyGet b2 "role" →
      bodyGet b1 "is_active" = bodyGet b2 "is_active" →
      AdminFunctions.updateUser userId b1 s =
        AdminFunctions.updateUser userId b2 s) ∧
    (validRole b1 = none → validActive b1 = none →
      AdminFunctions.updateUser userId b1 s =
        ({ success := false, message := "Aucune modification valide" }, s)) ∧
    (∀ r ∈ (AdminFunctions.updateUser userId b1 s).2.users,
      ∃ r0 ∈ s.users,
        r.id = r0.id ∧ r.email = r0.email ∧ r.password = r0.password ∧
        r.first_name = r0.first_name ∧ r.last_name = r0.last_name ∧
        (r.role = r0.role ∨ validRole b1 = some r.role) ∧
        (r.is_active = r0.is_active ∨ validActive b1 = some r.is_active)) := by
  refine ⟨?_, ?_, ?_⟩
  · intro h1 h2
    have hrl : validRole b1 = validRole b2 := by
      unfold validRole
      rw [h1]
    have hac : validActive b1 = validActive b2 := by
      unfold validActive
      rw [h2]
    unfold AdminFunctions.updateUser
    rw [hrl, hac]
  · intro h1 h2
    simp only [AdminFunctions.updateUser, h1, h2]
  · intro r hr
    cases hro : validRole b1 with
    | none =>
      cases hac : validActive b1 with
      | none =>
        simp only [AdminFunctions.updateUser, hro, hac] at hr
        exact ⟨r, hr, rfl, rfl, rfl, rfl, rfl, Or.inl rfl, Or.inl rfl⟩
      | some av =>
        simp only [AdminFunctions.updateUser, hro, hac, Option.getD_none,
          Option.getD_some] at hr
        obtain ⟨r0, hr0, hfr⟩ := List.mem_map.mp hr
        by_cases hid : (some r0.id == userId) = true
        · rw [if_pos hid] at hfr
          subst hfr
          exact ⟨r0, hr0, rfl, rfl, rfl, rfl, rfl, Or.inl rfl, Or.inr rfl⟩
        · rw [if_neg hid] at hfr
          subst hfr
          exact ⟨r0, hr0, rfl, rfl, rfl, rfl, rfl, Or.inl rfl, Or.inl rfl⟩
    | some rv =>
      cases hac : validActive b1 with
      | none =>
        simp only [AdminFunctions.updateUser, hro, hac, Option.getD_none,
          Option.getD_some] at hr
        obtain ⟨r0, hr0, hfr⟩ := List.mem_map.mp hr
        by_cases hid : (some r0.id == userId) = true
        · rw [if_pos hid] at hfr
          subst hfr
          exact ⟨r0, hr0, rfl, rfl, rfl, rfl, rfl, Or.inr rfl, Or.inl rfl⟩
        · rw [if_neg hid] at hfr
          subst hfr
          exact ⟨r0, hr0, rfl, rfl, rfl, rfl, rfl, Or.inl rfl, Or.inl rfl⟩
      | some av =>
        simp only [AdminFunctions.updateUser, hro, hac, Option.getD_none,
          Option.getD_some] at hr
        obtain ⟨r0, hr0, hfr⟩ := List.mem_map.mp hr
        by_cases hid : (some r0.id == userId) = true
        · rw [if_pos hid] at hfr
          subst hfr
          exact ⟨r0, hr0, rfl, rfl, rfl, rfl, rfl, Or.inr rfl, Or.inr rfl⟩
        · rw [if_neg hid] at hfr
          subst hfr
          exact ⟨r0, hr0, rfl, rfl, rfl, rfl, rfl, Or.inl rfl, Or.inl rfl⟩

/-- Witness for C5 at a concrete input: a body holding a valid role, an
invalid is_active and two junk fields gives the same outcome as the body
with just the role; a body with only junk fields fails with no write. -/
theorem admin_update_user_fields_spec_witness :
    AdminFunctions.updateUser (some 2)
        [("role", .str "admin"), ("is_active", .str "yes"),
         ("email", .str "evil@example.com"), ("password", .str "x")]
        sampleState =
      AdminFunctions.updateUser (some 2)
        [("role", .str "admin"), ("is_active", .str "yes")] sampleState ∧
    AdminFunctions.updateUser (some 2)
        [("email", .str "evil@example.com"), ("is_active", .num 1)]
        sampleState =
      ({ success := false, message := "Aucune modification valide" },
       sampleState) := by
  constructor
  · exact (admin_update_user_fields_spec (some 2)
      [("role", .str "admin"), ("is_active", .str "yes"),
       ("email", .str "evil@example.com"), ("password", .str "x")]
      [("role", .str "admin"), ("is_active", .str "yes")] sampleState).1 (by decide) (by decide)
  · exact (admin_update_user_fields_spec (some 2)
      [("email", .str "evil@example.com"), ("is_active", .num 1)]
      [] sampleState).2.1 (by decide) (by decide)

/-- The referential-integrity / quantity invariant claimed for the store:
every favorites and cart_items row points at a live user and a live
product, and every cart row has quantity at least 1. -/
def integrityInvariant (s : DBState) : Bool :=
  s.favorites.all (fun f =>
    s.users.any (fun u => u.id == f.user_id) &&
    s.products.any (fun p => p.id == f.product_id)) &&
  s.cart_items.all (fun c =>
    s.users.any (fun u => u.id == c.user_id) &&
    s.products.any (fun p => p.id == c.product_id)) &&
  s.cart_items.all (fun c => 1 ≤ c.quantity)

/-- A state in which user 2 has one favorite (product 3) and one cart row
(product 1, quantity 2). -/
def orphanSetupState : DBState :=
  { users := sampleUsers, products := sampleProducts,
    favorites := [⟨1, 2, 3⟩], cart_items := [⟨1, 2, 1, 2⟩],
    nextFavoriteId := 2, nextCartItemId := 2 }

/-- C6 fails on the code: the sqlite3 connection never enables
`PRAGMA foreign_keys`, so the declared ON DELETE CASCADE is inert. Deleting
user 2 through AdminFunctions.deleteUser removes only the users row and
reports success, and the favorites and cart_items rows of user 2 survive as
orphans, breaking the referential-integrity invariant the schema declares. -/
theorem cascade_delete_missing_bug :
    integrityInvariant orphanSetupState = true ∧
    (AdminFunctions.deleteUser (some 2) orphanSetupState).1.success = true ∧
    (AdminFunctions.deleteUser (some 2) orphanSetupState).2.favorites =
      [⟨1, 2, 3⟩] ∧
    (AdminFunctions.deleteUser (some 2) orphanSetupState).2.cart_items =
      [⟨1, 2, 1, 2⟩] ∧
    ((AdminFunctions.deleteUser (some 2) orphanSetupState).2.users.any
      (fun u => u.id == 2)) = false ∧
    integrityInvariant (AdminFunctions.deleteUser (some 2) orphanSetupState).2 =
      false := by
  refine ⟨by decide, rfl, rfl, rfl, by decide, by decide⟩

/-- An HTTP method, as far as the CSRF wiring inspects it. -/
inductive Method where
  | GET | HEAD | OPTIONS | POST | PUT | DELETE | PATCH
deriving DecidableEq, Repr

/-- Server-side session state as seen by the CSRF guard: the token issued
to this session, if any. -/
structure Session where
  csrfToken : Option String
deriving DecidableEq, Repr

/-- Modelled from the spec: the token check lives in the csurf dependency,
not in this repository's sources. Per §4.2 of the spec,
`verify(session, suppliedToken)` succeeds exactly when the supplied token
matches the session's issued token. -/
def csrfVerify (sess : Session) (supplied : Option String) : Bool :=
  match sess.csrfToken, supplied with
  | some t, some u => t == u
  | _, _ => false

/-- Modelled from the spec: GET /api/csrf-token (server.js lines 81–83)
issues a per-session token on demand; the token is bound to the session. -/
def issueCsrfToken (_sess : Session) (fresh : String) : String × Session :=
  (fresh, { csrfToken := some fresh })

/-- The /api CSRF wiring (server.js lines 84–87) with the EBADCSRFTOKEN
error handler (lines 442–447): GET/HEAD/OPTIONS skip the guard entirely,
every other method runs the guard and a failed check is answered 403
"Token CSRF invalide" without the handler ever running. -/
def csrfGuardedApi (handler : DBState → ApiResult × DBState) (m : Method)
    (supplied : Option String) (sess : Session) (s : DBState) :
    ApiResult × DBState :=
  if m = Method.GET ∨ m = Method.HEAD ∨ m = Method.OPTIONS then handler s
  else if csrfVerify sess supplied then handler s
  else ({ status := 403, success := false, message := "Token CSRF invalide" }, s)

/-- C7: the CSRF guard. A mutating request (method outside
GET/HEAD/OPTIONS) whose supplied token fails the check is answered 403 and
leaves the state untouched; safe methods bypass the guard whatever token
they carry; and the same mutating request re-sent with a token freshly
issued for its session passes the guard and runs the handler. -/
theorem csrf_guard_spec (handler : DBState → ApiResult × DBState)
    (m : Method) (supplied : Option String) (sess : Session) (s : DBState)
    (hmut : ¬(m = Method.GET ∨ m = Method.HEAD ∨ m = Method.OPTIONS)) :
    (csrfVerify sess supplied = false →
        csrfGuardedApi handler m supplied sess s =
          ({ status := 403, success := false, message := "Token CSRF invalide" },
           s)) ∧
    (∀ msafe : Method,
        (msafe = Method.GET ∨ msafe = Method.HEAD ∨ msafe = Method.OPTIONS) →
        ∀ sup : Option String, csrfGuardedApi handler msafe sup sess s = handler s) ∧
    (∀ fresh : String,
        csrfGuardedApi handler m (some (issueCsrfToken sess fresh).1)
          (issueCsrfToken sess fresh).2 s = handler s) := by
  refine ⟨?_, ?_, ?_⟩
  · intro hbad
    simp [csrfGuardedApi, hmut, hbad]
  · intro msafe hsafe sup
    simp [csrfGuardedApi, hsafe]
  · intro fresh
    simp [csrfGuardedApi, issueCsrfToken, csrfVerify, hmut]

/-- A trivial 200 handler used to observe whether the guard let a request
through. -/
def okHandler : DBState → ApiResult × DBState :=
  fun st => ({ status := 200, success := true, message := "ok" }, st)

/-- Witness for C7 at a concrete input: a POST with no token against a
session holding token "tok1" is answered 403 with the state unchanged; the
same POST with a freshly issued token runs the handler; a GET bypasses the
guard. -/
theorem csrf_guard_spec_witness :
    csrfGuardedApi okHandler Method.POST none ⟨some "tok1"⟩ sampleState =
      ({ status := 403, success := false, message := "Token CSRF invalide" },
       sampleState) ∧
    csrfGuardedApi okHandler Method.POST
        (some (issueCsrfToken ⟨some "tok1"⟩ "tok2").1)
        (issueCsrfToken ⟨some "tok1"⟩ "tok2").2 sampleState =
      ({ status := 200, success := true, message := "ok" }, sampleState) ∧
    csrfGuardedApi okHandler Method.GET none ⟨some "tok1"⟩ sampleState =
      ({ status := 200, success := true, message := "ok" }, sampleState) := by
  have h := csrf_guard_spec okHandler Method.POST none ⟨some "tok1"⟩
    sampleState (by decide)
  exact ⟨h.1 (by decide), h.2.2 "tok2", h.2.1 Method.GET (Or.inl rfl) none⟩

/-- One authLimiter decision (server.js lines 36–52: express-rate-limit,
windowMs 15 min, max 10, skipSuccessfulRequests true) for one
(client address, email) key inside one window. The stored hit count is
incremented on arrival and the request is rejected once it would exceed 10;
because skipSuccessfulRequests is set, the increment is undone afterwards
when the allowed request succeeded (status < 400), so only failing attempts
stay counted. `succeeds` is whether the allowed request would succeed. -/
def authLimiterStep (counter : Nat) (succeeds : Bool) : Bool × Nat :=
  if counter + 1 ≤ 10 then
    (true, if succeeds then counter else counter + 1)
  else
    (false, counter + 1)

/-- The allowed/rejected flags for a sequence of attempts with the given
outcomes, one key, one window, starting from hit count `counter`. -/
def authLimiterRun (counter : Nat) : List Bool → List Bool
  | [] => []
  | o :: os =>
      let r := authLimiterStep counter o
      r.1 :: authLimiterRun r.2 os

/-- Number of attempts the authLimiter lets through that then fail. -/
def authAllowedFailures (counter : Nat) : List Bool → Nat
  | [] => 0
  | o :: os =>
      let r := authLimiterStep counter o
      (if r.1 && !o then 1 else 0) + authAllowedFailures r.2 os

/-- One apiLimiter decision (server.js lines 54–58: express-rate-limit,
windowMs 15 min, max 200, every request counted). -/
def apiLimiterStep (counter : Nat) : Bool × Nat :=
  if counter + 1 ≤ 200 then (true, counter + 1) else (false, counter + 1)

/-- The allowed/rejected flags for `n` requests from one client address in
one window, starting from hit count `counter`. -/
def apiLimiterRun (counter : Nat) : Nat → List Bool
  | 0 => []
  | n + 1 =>
      let r := apiLimiterStep counter
      r.1 :: apiLimiterRun r.2 n

/-- C8 as stated is false on the code: because authLimiter sets
skipSuccessfulRequests, successful attempts never stay counted, so eleven
consecutive successful login attempts inside one window are all admitted —
more than the claimed cap of 10. -/
theorem rate_limiter_claim_counterexample :
    authLimiterRun 0 (List.replicate 11 true) = List.replicate 11 true ∧
    (authLimiterRun 0 (List.replicate 11 true)).count true = 11 ∧
    ¬((authLimiterRun 0 (List.replicate 11 true)).count true ≤ 10) := by
  refine ⟨by decide, by decide, by decide⟩

lemma authAllowedFailures_of_ge (os : List Bool) :
    ∀ counter : Nat, 10 ≤ counter → authAllowedFailures counter os = 0 := by
  induction os with
  | nil => intro counter _; rfl
  | cons o os ih =>
    intro counter hc
    have hno : ¬(counter + 1 ≤ 10) := by omega
    simp only [authAllowedFailures, authLimiterStep, if_neg hno,
      Bool.false_and, if_neg Bool.false_ne_true, Nat.zero_add]
    exact ih (counter + 1) (by omega)

lemma authAllowedFailures_le (os : List Bool) :
    ∀ counter : Nat, authAllowedFailures counter os + min counter 10 ≤ 10 := by
  induction os with
  | nil => intro counter; simp [authAllowedFailures]
  | cons o os ih =>
    intro counter
    by_cases hc : counter + 1 ≤ 10
    · have hc9 : counter ≤ 9 := by omega
      cases o with
      | true =>
        have h := ih counter
        have hstep : authAllowedFailures counter (true :: os)
            = authAllowedFailures counter os := by
          simp [authAllowedFailures, authLimiterStep, hc9]
        rw [hstep]
        exact h
      | false =>
        have h := ih (counter + 1)
        have hstep : authAllowedFailures counter (false :: os)
            = 1 + authAllowedFailures (counter + 1) os := by
          simp [authAllowedFailures, authLimiterStep, hc9]
        rw [hstep]
        omega
    · have hc9 : ¬(counter ≤ 9) := by omega
      have h0 := authAllowedFailures_of_ge os (counter + 1) (by omega)
      have hstep : authAllowedFailures counter (o :: os)
          = authAllowedFailures (counter + 1) os := by
        simp [authAllowedFailures, authLimiterStep, hc9]
      rw [hstep, h0]
      omega

lemma apiLimiterRun_count_zero_of_ge (n : Nat) :
    ∀ counter : Nat, 200 ≤ counter → (apiLimiterRun counter n).count true = 0 := by
  induction n with
  | zero => intro counter _; rfl
  | succ n ih =>
    intro counter hc
    have hno : ¬(counter + 1 ≤ 200) := by omega
    simp only [apiLimiterRun, apiLimiterStep, if_neg hno]
    rw [List.count_cons]
    simp only [ih (counter + 1) (by omega)]
    simp

lemma apiLimiterRun_count_le (n : Nat) :
    ∀ counter : Nat, (apiLimiterRun counter n).count true + min counter 200 ≤ 200 := by
  induction n with
  | zero => intro counter; simp [apiLimiterRun, List.count_nil]
  | succ n ih =>
    intro counter
    by_cases hc : counter + 1 ≤ 200
    · have hc199 : counter ≤ 199 := by omega
      have hstep : (apiLimiterRun counter (n + 1)).count true
          = (apiLimiterRun (counter + 1) n).count true + 1 := by
        simp [apiLimiterRun, apiLimiterStep, hc199, List.count_cons]
      rw [hstep]
      have h := ih (counter + 1)
      omega
    · have hc199 : ¬(counter ≤ 199) := by omega
      have hstep : (apiLimiterRun counter (n + 1)).count true
          = (apiLimiterRun (counter + 1) n).count true := by
        simp [apiLimiterRun, apiLimiterStep, hc199, List.count_cons]
      rw [hstep, apiLimiterRun_count_zero_of_ge n (counter + 1) (by omega)]
      omega

/-- C8 amended: what the configured limiters actually bound. Within one
15-minute window, the authLimiter admits at most 10 attempts that fail for
each (client address, email) key — successful attempts are uncounted, so
they are admitted without limit (skipSuccessfulRequests) — and the
apiLimiter admits at most 200 requests per client address. -/
theorem rate_limiter_amended_spec (os : List Bool) (n : Nat) :
    authAllowedFailures 0 os ≤ 10 ∧ (apiLimiterRun 0 n).count true ≤ 200 := by
  constructor
  · have h := authAllowedFailures_le os 0
    simpa using h
  · have h := apiLimiterRun_count_le n 0
    simpa using h
